import Mathlib

/-!
Shallow embedding of the order-tracking CRUD application in `src/app.py`.

The Flask routes `add_order`, `update_order`, `delete_order`, `get_orders`
and `export_to_excel` are embedded as pure functions over an explicit
`Store` state.  JSON request bodies are embedded as structures whose fields
record key presence (`Option`) and, for fields where the code distinguishes
a JSON `null` from a string, nullability (`Option (Option String)`:
`none` = key absent, `some none` = key present with value null,
`some (some s)` = key present with string `s`).

Python `float` prices are embedded as `Rat`; SQL `Integer` as `Int`;
`datetime` values (the code only ever uses the calendar-date part: inputs
are parsed with format string %Y-%m-%d and outputs rendered with the same
format) as a `Date` triple.  Exceptions (`KeyError`, `ValueError` from
`strptime`, SQLAlchemy `IntegrityError` on the unique constraint of
`order_number`, and the 404 of `query.get_or_404`) are embedded as an
`Except` error type; the `run*` wrappers record the transactional
behaviour that a raised exception leaves the store unchanged (the session
never commits).
-/

namespace FormOrder

/-- A calendar date, the part of a Python `datetime` that the application
reads and writes (it parses with `strptime(s, "%Y-%m-%d")` and renders with
`strftime("%Y-%m-%d")`). -/
structure Date where
  year : Nat
  month : Nat
  day : Nat
deriving Repr, DecidableEq

/-- The decimal digit character of `n % 10`. -/
def digitChar (n : Nat) : Char := Char.ofNat (48 + n % 10)

/-- Two-digit zero-padded decimal rendering, as `strftime` field %m / %d. -/
def pad2 (n : Nat) : String := ⟨[digitChar (n / 10), digitChar n]⟩

/-- Four-digit zero-padded decimal rendering, as `strftime` field %Y
(Python datetime years lie in 1..9999). -/
def pad4 (n : Nat) : String :=
  ⟨[digitChar (n / 1000), digitChar (n / 100), digitChar (n / 10), digitChar n]⟩

/-- Models `d.strftime("%Y-%m-%d")` from `Order.to_dict`. -/
def formatDate (d : Date) : String :=
  pad4 d.year ++ "-" ++ pad2 d.month ++ "-" ++ pad2 d.day

/-- Gregorian leap-year test, as Python `datetime` uses. -/
def isLeap (y : Nat) : Bool := (y % 4 == 0 && y % 100 != 0) || y % 400 == 0

/-- Number of days of month `m` in year `y`. -/
def daysInMonth (y m : Nat) : Nat :=
  if m == 2 then (if isLeap y then 29 else 28)
  else if m == 4 || m == 6 || m == 9 || m == 11 then 30 else 31

/-- Split a character list at every dash, keeping empty pieces. -/
def splitDashes : List Char → List (List Char)
  | [] => [[]]
  | c :: rest =>
    match splitDashes rest, c == '-' with
    | r, true => [] :: r
    | [], false => [[c]]
    | h :: t, false => (c :: h) :: t

/-- Whether a nonempty character run is all decimal digits. -/
def isDigits (l : List Char) : Bool := !l.isEmpty && l.all Char.isDigit

/-- Numeric value of a decimal digit run. -/
def digitsVal (l : List Char) : Nat :=
  l.foldl (fun n c => 10 * n + (c.toNat - 48)) 0

/-- Models `datetime.strptime(s, "%Y-%m-%d")`: exactly four year digits,
one or two month and day digits, month in 1..12, day valid for the month;
any other string raises ValueError, embedded as `none`. -/
def parseDate (s : String) : Option Date :=
  match splitDashes s.data with
  | [ys, ms, ds] =>
    if isDigits ys && isDigits ms && isDigits ds then
      if ys.length == 4 && (ms.length == 1 || ms.length == 2)
          && (ds.length == 1 || ds.length == 2)
          && 1 ≤ digitsVal ms && digitsVal ms ≤ 12 && 1 ≤ digitsVal ds
          && digitsVal ds ≤ daysInMonth (digitsVal ys) (digitsVal ms)
      then some ⟨digitsVal ys, digitsVal ms, digitsVal ds⟩ else none
    else none
  | _ => none

/-- The `Order` model row (class `Order(db.Model)` in `src/app.py`):
`status` and `notes` columns are nullable, the four auxiliary date columns
are nullable, everything else is `nullable=False`. -/
structure Order where
  id : Nat
  order_number : String
  date : Date
  rim_quantity : Int
  city : String
  document_type : String
  unit_price : Rat
  total_price : Rat
  entry_date : Option Date
  print_deadline : Option Date
  cek_date : Option Date
  finish_date : Option Date
  status : Option String
  notes : Option String
deriving Repr, DecidableEq

/-- The database table plus its autoincrement counter for the primary key. -/
structure Store where
  orders : List Order
  nextId : Nat
deriving Repr, DecidableEq

/-- The exceptions the request handlers can raise:
`keyError f` is Python `KeyError(f)` from `data[f]` with `f` missing (the
missing-required-field ValidationError of the spec, carrying the offending
field name); `valueError s` is the ValueError `strptime` raises on a
malformed date string `s`; `integrityError` is the SQLAlchemy
IntegrityError from the unique constraint on `order_number` (the spec
UniqueConstraintError); `notFound` is the 404 of `query.get_or_404` (the
spec NotFoundError). -/
inductive AppError where
  | keyError : String → AppError
  | valueError : String → AppError
  | integrityError : AppError
  | notFound : AppError
deriving Repr, DecidableEq

/-- The JSON body of `POST /api/orders` as read by `add_order`.  Fields the
code accesses as `data[k]` (required: KeyError when the key is absent) are
`Option` of their parsed type; fields read with `data.get` where null and
the empty string matter are `Option (Option String)`.  `total_price`,
`cek_date` and `finish_date` may be supplied by a client but `add_order`
never reads them. -/
structure CreateInput where
  order_number : Option String
  date : Option (Option String)
  rim_quantity : Option Int
  city : Option String
  document_type : Option String
  unit_price : Option Rat
  total_price : Option Rat
  entry_date : Option (Option String)
  print_deadline : Option (Option String)
  cek_date : Option (Option String)
  finish_date : Option (Option String)
  status : Option (Option String)
  notes : Option (Option String)
deriving Repr, DecidableEq

/-- Python truthiness of `data.get(k)` for a string-valued key: false when
the key is absent, its value is null, or its value is the empty string. -/
def truthy : Option (Option String) → Bool
  | some (some s) => !(s == "")
  | _ => false

/-- Line 73 of `src/app.py`:
`datetime.strptime(data["date"], "%Y-%m-%d") if data.get("date") else datetime.now()`. -/
def createDate (now : Date) (v : Option (Option String)) : Except AppError Date :=
  match v with
  | some (some s) =>
    if s == "" then .ok now
    else match parseDate s with
      | some d => .ok d
      | none => .error (.valueError s)
  | _ => .ok now

/-- Lines 74 and 75 of `src/app.py`:
`datetime.strptime(data[k], "%Y-%m-%d") if data.get(k) else None`. -/
def createOptDate (v : Option (Option String)) : Except AppError (Option Date) :=
  match v with
  | some (some s) =>
    if s == "" then .ok none
    else match parseDate s with
      | some d => .ok (some d)
      | none => .error (.valueError s)
  | _ => .ok none

/-- The row the `Order(...)` constructor call of `add_order` builds (lines
77 to 89 of `src/app.py`): `total_price` is computed as `data["unit_price"]
* data["rim_quantity"]`, `cek_date` and `finish_date` are left unset,
`status` defaults to "masuk" and `notes` to "" when the key is absent, and
the id comes from the autoincrement primary key. -/
def mkOrder (st : Store) (data : CreateInput) (date : Date)
    (entry_date print_deadline : Option Date) (order_number : String)
    (rim_quantity : Int) (city document_type : String) (unit_price : Rat) :
    Order :=
  { id := st.nextId
    order_number := order_number
    date := date
    rim_quantity := rim_quantity
    city := city
    document_type := document_type
    unit_price := unit_price
    total_price := unit_price * (rim_quantity : Rat)
    entry_date := entry_date
    print_deadline := print_deadline
    cek_date := none
    finish_date := none
    status := data.status.getD (some "masuk")
    notes := data.notes.getD (some "") }

/-- Handler `add_order` (lines 68 to 93 of `src/app.py`): parse the three date
fields, read the five required fields (first missing key raises, in source
order), build the row with `total_price = data["unit_price"] *
data["rim_quantity"]`, `cek_date`/`finish_date` unset, `status`
defaulting to "masuk" and `notes` to "" when the key is absent, then
commit; the commit enforces the unique constraint on `order_number`. -/
def addOrder (now : Date) (st : Store) (data : CreateInput) :
    Except AppError (Store × Order) :=
  match createDate now data.date with
  | .error e => .error e
  | .ok date =>
  match createOptDate data.entry_date with
  | .error e => .error e
  | .ok entry_date =>
  match createOptDate data.print_deadline with
  | .error e => .error e
  | .ok print_deadline =>
  match data.order_number with
  | none => .error (.keyError "order_number")
  | some order_number =>
  match data.rim_quantity with
  | none => .error (.keyError "rim_quantity")
  | some rim_quantity =>
  match data.city with
  | none => .error (.keyError "city")
  | some city =>
  match data.document_type with
  | none => .error (.keyError "document_type")
  | some document_type =>
  match data.unit_price with
  | none => .error (.keyError "unit_price")
  | some unit_price =>
  if st.orders.any (fun x => x.order_number == order_number) then
    .error .integrityError
  else
    .ok ({ orders := st.orders ++
            [mkOrder st data date entry_date print_deadline order_number
              rim_quantity city document_type unit_price],
           nextId := st.nextId + 1 },
         mkOrder st data date entry_date print_deadline order_number
           rim_quantity city document_type unit_price)

/-- Handler `add_order` at the transaction boundary: an exception rolls back, the
store is returned unchanged. -/
def runCreate (now : Date) (st : Store) (data : CreateInput) :
    Store × Except AppError Order :=
  match addOrder now st data with
  | .ok (st', o) => (st', .ok o)
  | .error e => (st, .error e)

/-- The JSON body of `PUT /api/orders/<id>` as read by `update_order`.
Every field is read with `data.get`, so none is required; `total_price`
may be supplied but is never read. -/
structure UpdateInput where
  order_number : Option String
  rim_quantity : Option Int
  city : Option String
  document_type : Option String
  unit_price : Option Rat
  total_price : Option Rat
  status : Option (Option String)
  notes : Option (Option String)
  date : Option (Option String)
  entry_date : Option (Option String)
  print_deadline : Option (Option String)
  cek_date : Option (Option String)
  finish_date : Option (Option String)
deriving Repr, DecidableEq

/-- Lines 101 to 108 of `src/app.py`: the non-date fields, each
`order.f = data.get("f", order.f)`, with `order.total_price =
order.rim_quantity * order.unit_price` recomputed from the possibly
just-updated pair. -/
def applyBasic (prev : Order) (d : UpdateInput) : Order :=
  let rim := d.rim_quantity.getD prev.rim_quantity
  let price := d.unit_price.getD prev.unit_price
  { prev with
    order_number := d.order_number.getD prev.order_number
    rim_quantity := rim
    city := d.city.getD prev.city
    document_type := d.document_type.getD prev.document_type
    unit_price := price
    total_price := (rim : Rat) * price
    status := d.status.getD prev.status
    notes := d.notes.getD prev.notes }

/-- Lines 111 to 120 of `src/app.py`, one conditional date update:
`if data.get(k): order.k = datetime.strptime(data[k], "%Y-%m-%d")`. -/
def updDate (cur : Option Date) (v : Option (Option String)) :
    Except AppError (Option Date) :=
  match v with
  | some (some s) =>
    if s == "" then .ok cur
    else match parseDate s with
      | some d => .ok (some d)
      | none => .error (.valueError s)
  | _ => .ok cur

/-- Same as `updDate` for the non-nullable `date` column. -/
def updDateReq (cur : Date) (v : Option (Option String)) :
    Except AppError Date :=
  match v with
  | some (some s) =>
    if s == "" then .ok cur
    else match parseDate s with
      | some d => .ok d
      | none => .error (.valueError s)
  | _ => .ok cur

/-- The fully updated row: the non-date updates of `applyBasic` combined
with the results of the five conditional date updates. -/
def mkUpdated (prev : Order) (d : UpdateInput) (date : Date)
    (entry pdl cek fin : Option Date) : Order :=
  { applyBasic prev d with
    date := date, entry_date := entry, print_deadline := pdl,
    cek_date := cek, finish_date := fin }

/-- Handler `update_order` (lines 95 to 123 of `src/app.py`): 404 when no row has
the given primary key, then the field updates of `applyBasic`, the five
conditional date updates in source order, and the commit, which enforces
the unique constraint on `order_number` against the other rows. -/
def updateOrder (st : Store) (oid : Nat) (d : UpdateInput) :
    Except AppError (Store × Order) :=
  match st.orders.find? (fun x => x.id == oid) with
  | none => .error .notFound
  | some prev =>
    match updDateReq prev.date d.date with
    | .error e => .error e
    | .ok date =>
    match updDate prev.entry_date d.entry_date with
    | .error e => .error e
    | .ok entry =>
    match updDate prev.print_deadline d.print_deadline with
    | .error e => .error e
    | .ok pdl =>
    match updDate prev.cek_date d.cek_date with
    | .error e => .error e
    | .ok cek =>
    match updDate prev.finish_date d.finish_date with
    | .error e => .error e
    | .ok fin =>
    if st.orders.any (fun x => !(x.id == oid) &&
        x.order_number == (mkUpdated prev d date entry pdl cek fin).order_number) then
      .error .integrityError
    else
      .ok ({ st with orders := st.orders.map (fun x =>
              if x.id == oid then mkUpdated prev d date entry pdl cek fin else x) },
           mkUpdated prev d date entry pdl cek fin)

/-- Handler `update_order` at the transaction boundary: an exception (404, parse
error, constraint violation) leaves the store unchanged. -/
def runUpdate (st : Store) (oid : Nat) (d : UpdateInput) :
    Store × Except AppError Order :=
  match updateOrder st oid d with
  | .ok (st', o) => (st', .ok o)
  | .error e => (st, .error e)

/-- Handler `delete_order` (lines 125 to 130 of `src/app.py`): 404 when no row has
the given primary key, otherwise the row is removed. -/
def deleteOrder (st : Store) (oid : Nat) : Except AppError Store :=
  match st.orders.find? (fun x => x.id == oid) with
  | none => .error .notFound
  | some _ => .ok { st with orders := st.orders.filter (fun x => !(x.id == oid)) }

/-- Handler `delete_order` at the transaction boundary. -/
def runDelete (st : Store) (oid : Nat) : Store × Except AppError Unit :=
  match deleteOrder st oid with
  | .ok st' => (st', .ok ())
  | .error e => (st, .error e)

/-- The serialized record `Order.to_dict` produces (lines 40 to 56 of
`src/app.py`): every date column rendered with `strftime("%Y-%m-%d")` when
set and null otherwise. -/
structure OrderRecord where
  id : Nat
  order_number : String
  date : Option String
  rim_quantity : Int
  city : String
  document_type : String
  unit_price : Rat
  total_price : Rat
  entry_date : Option String
  print_deadline : Option String
  cek_date : Option String
  finish_date : Option String
  status : Option String
  notes : Option String
deriving Repr, DecidableEq

/-- Serialization `Order.to_dict`.  The `date` column is `nullable=False`, so its
truthiness test always takes the `strftime` branch for a stored row. -/
def Order.toDict (o : Order) : OrderRecord :=
  { id := o.id
    order_number := o.order_number
    date := some (formatDate o.date)
    rim_quantity := o.rim_quantity
    city := o.city
    document_type := o.document_type
    unit_price := o.unit_price
    total_price := o.total_price
    entry_date := o.entry_date.map formatDate
    print_deadline := o.print_deadline.map formatDate
    cek_date := o.cek_date.map formatDate
    finish_date := o.finish_date.map formatDate
    status := o.status
    notes := o.notes }

/-- Handler `get_orders` (lines 63 to 66 of `src/app.py`): every stored order,
serialized, in store order. -/
def getOrders (st : Store) : List OrderRecord := st.orders.map Order.toDict

/-- The keys of the dictionary `to_dict` returns, in insertion order; the
pandas DataFrame built from a nonempty list of these dictionaries has
exactly these columns in this order. -/
def dictKeys : List String :=
  ["id", "order_number", "date", "rim_quantity", "city", "document_type",
   "unit_price", "total_price", "entry_date", "print_deadline", "cek_date",
   "finish_date", "status", "notes"]

/-- Python `str` of a nullable string cell, as `astype(str)` renders it:
null becomes the string None. -/
def optStr : Option String → String
  | none => "None"
  | some s => s

/-- Python `str` of a price cell.  An integral float prints with a
trailing .0; the fractional rendering is a stand-in for the float repr,
which no proved property depends on. -/
def ratStr (q : Rat) : String :=
  if q.den == 1 then toString q.num ++ ".0"
  else toString q.num ++ "/" ++ toString q.den

/-- The `astype(str)` rendering of column `c` of a serialized record, used
by the column-width computation of `export_to_excel`. -/
def recordCell (r : OrderRecord) (c : String) : String :=
  if c == "id" then toString r.id
  else if c == "order_number" then r.order_number
  else if c == "date" then optStr r.date
  else if c == "rim_quantity" then toString r.rim_quantity
  else if c == "city" then r.city
  else if c == "document_type" then r.document_type
  else if c == "unit_price" then ratStr r.unit_price
  else if c == "total_price" then ratStr r.total_price
  else if c == "entry_date" then optStr r.entry_date
  else if c == "print_deadline" then optStr r.print_deadline
  else if c == "cek_date" then optStr r.cek_date
  else if c == "finish_date" then optStr r.finish_date
  else if c == "status" then optStr r.status
  else if c == "notes" then optStr r.notes
  else ""

/-- The worksheet `export_to_excel` builds: the header row (written with a
bold, shaded format), the data rows below it, and the width set for each
column.  A pandas DataFrame built from an empty record list has no
columns, so `header` is then empty and nothing is written. -/
structure ExportedSheet where
  header : List String
  dataRows : List (List String)
  colWidths : List Nat
  headerBold : Bool
  headerShaded : Bool
deriving Repr, DecidableEq

/-- Handler `export_to_excel` (lines 132 to 163 of `src/app.py`): serialize every
order, build the DataFrame, write it with headers and one row per record,
rewrite the header cells with the bold shaded format, and set each column
width to `max(longest str-rendered value, header length) + 2`. -/
def exportToExcel (orders : List Order) : ExportedSheet :=
  let data := orders.map Order.toDict
  let cols : List String := if data.isEmpty then [] else dictKeys
  { header := cols
    dataRows := data.map (fun r => cols.map (fun c => recordCell r c))
    colWidths := cols.map (fun c =>
      max ((data.map (fun r => (recordCell r c).length)).foldl max 0) c.length + 2)
    headerBold := true
    headerShaded := true }

/-- Row count of the produced worksheet: the header row when any header
cell was written, plus one row per record. -/
def ExportedSheet.numRows (s : ExportedSheet) : Nat :=
  (if s.header.isEmpty then 0 else 1) + s.dataRows.length

/-- Inversion of a successful `add_order` run: the three date parses
succeeded, the five required keys were present, the uniqueness check
passed, and the result and new store have the stated shape. -/
theorem addOrder_ok_inv (now : Date) (st : Store) (data : CreateInput)
    (st' : Store) (o : Order) (h : addOrder now st data = .ok (st', o)) :
    ∃ date entry pdl n q c t p,
      createDate now data.date = .ok date ∧
      createOptDate data.entry_date = .ok entry ∧
      createOptDate data.print_deadline = .ok pdl ∧
      data.order_number = some n ∧
      data.rim_quantity = some q ∧
      data.city = some c ∧
      data.document_type = some t ∧
      data.unit_price = some p ∧
      st.orders.any (fun x => x.order_number == n) = false ∧
      o = mkOrder st data date entry pdl n q c t p ∧
      st' = { orders := st.orders ++ [o], nextId := st.nextId + 1 } := by
  unfold addOrder at h
  split at h
  next e heq => exact absurd h (by simp)
  next date hdate =>
  split at h
  next e heq => exact absurd h (by simp)
  next entry hentry =>
  split at h
  next e heq => exact absurd h (by simp)
  next pdl hpdl =>
  split at h
  next hn => exact absurd h (by simp)
  next n hn =>
  split at h
  next hq => exact absurd h (by simp)
  next q hq =>
  split at h
  next hc => exact absurd h (by simp)
  next c hc =>
  split at h
  next ht => exact absurd h (by simp)
  next t ht =>
  split at h
  next hp => exact absurd h (by simp)
  next p hp =>
  split at h
  next hany => exact absurd h (by simp)
  next hany =>
  rw [Except.ok.injEq, Prod.mk.injEq] at h
  refine ⟨date, entry, pdl, n, q, c, t, p, hdate, hentry, hpdl, hn, hq, hc, ht, hp, ?_, ?_, ?_⟩
  · simpa using hany
  · exact h.2.symm
  · rw [← h.1, ← h.2]

/-- Inversion of a successful `update_order` run: a row with the given id
was found, the five conditional date updates succeeded, the uniqueness
check passed, and the result and new store have the stated shape. -/
theorem updateOrder_ok_inv (st : Store) (oid : Nat) (d : UpdateInput)
    (st' : Store) (o : Order) (h : updateOrder st oid d = .ok (st', o)) :
    ∃ prev date entry pdl cek fin,
      st.orders.find? (fun x => x.id == oid) = some prev ∧
      updDateReq prev.date d.date = .ok date ∧
      updDate prev.entry_date d.entry_date = .ok entry ∧
      updDate prev.print_deadline d.print_deadline = .ok pdl ∧
      updDate prev.cek_date d.cek_date = .ok cek ∧
      updDate prev.finish_date d.finish_date = .ok fin ∧
      st.orders.any (fun x => !(x.id == oid) && x.order_number == o.order_number) = false ∧
      o = mkUpdated prev d date entry pdl cek fin ∧
      st' = { st with orders := st.orders.map (fun x => if x.id == oid then o else x) } := by
  unfold updateOrder at h
  split at h
  next hfind => exact absurd h (by simp)
  next prev hfind =>
  split at h
  next e heq => exact absurd h (by simp)
  next date hdate =>
  split at h
  next e heq => exact absurd h (by simp)
  next entry hentry =>
  split at h
  next e heq => exact absurd h (by simp)
  next pdl hpdl =>
  split at h
  next e heq => exact absurd h (by simp)
  next cek hcek =>
  split at h
  next e heq => exact absurd h (by simp)
  next fin hfin =>
  split at h
  next hany => exact absurd h (by simp)
  next hany =>
  rw [Except.ok.injEq, Prod.mk.injEq] at h
  refine ⟨prev, date, entry, pdl, cek, fin, hfind, hdate, hentry, hpdl, hcek, hfin, ?_, ?_, ?_⟩
  · rw [← h.2]
    simpa using hany
  · exact h.2.symm
  · rw [← h.1, ← h.2]

theorem createDate_falsy (now : Date) (v : Option (Option String))
    (hv : truthy v = false) : createDate now v = .ok now := by
  rcases v with _ | (_ | s)
  · rfl
  · rfl
  · simp only [truthy, Bool.not_eq_false', beq_iff_eq] at hv
    simp [createDate, hv]

theorem createOptDate_falsy (v : Option (Option String))
    (hv : truthy v = false) : createOptDate v = .ok none := by
  rcases v with _ | (_ | s)
  · rfl
  · rfl
  · simp only [truthy, Bool.not_eq_false', beq_iff_eq] at hv
    simp [createOptDate, hv]

theorem updDate_falsy (cur : Option Date) (v : Option (Option String))
    (hv : truthy v = false) : updDate cur v = .ok cur := by
  rcases v with _ | (_ | s)
  · rfl
  · rfl
  · simp only [truthy, Bool.not_eq_false', beq_iff_eq] at hv
    simp [updDate, hv]

theorem updDateReq_falsy (cur : Date) (v : Option (Option String))
    (hv : truthy v = false) : updDateReq cur v = .ok cur := by
  rcases v with _ | (_ | s)
  · rfl
  · rfl
  · simp only [truthy, Bool.not_eq_false', beq_iff_eq] at hv
    simp [updDateReq, hv]

theorem parseDate_empty : parseDate "" = none := rfl

theorem updDate_of_parse (cur : Option Date) (s : String) (dd : Date)
    (hp : parseDate s = some dd) : updDate cur (some (some s)) = .ok (some dd) := by
  have hs : ¬ (s = "") := by
    intro h
    rw [h, parseDate_empty] at hp
    exact absurd hp (by simp)
  simp [updDate, hs, hp]

theorem updDateReq_of_parse (cur : Date) (s : String) (dd : Date)
    (hp : parseDate s = some dd) : updDateReq cur (some (some s)) = .ok dd := by
  have hs : ¬ (s = "") := by
    intro h
    rw [h, parseDate_empty] at hp
    exact absurd hp (by simp)
  simp [updDateReq, hs, hp]

/-- The shape `Serialize` gives every set date: four digits, a dash, two
digits, a dash, two digits. -/
def isYMD (s : String) : Bool :=
  match s.data with
  | [y1, y2, y3, y4, h1, m1, m2, h2, d1, d2] =>
    y1.isDigit && y2.isDigit && y3.isDigit && y4.isDigit && h1 == '-' &&
    m1.isDigit && m2.isDigit && h2 == '-' && d1.isDigit && d2.isDigit
  | _ => false

theorem digitChar_isDigit (n : Nat) : (digitChar n).isDigit = true := by
  unfold digitChar
  set k := n % 10 with hk
  have h : k < 10 := by
    rw [hk]
    exact Nat.mod_lt _ (by norm_num)
  interval_cases k <;> decide

theorem formatDate_data (d : Date) : (formatDate d).data =
    [digitChar (d.year / 1000), digitChar (d.year / 100), digitChar (d.year / 10),
     digitChar d.year, '-', digitChar (d.month / 10), digitChar d.month,
     '-', digitChar (d.day / 10), digitChar d.day] := rfl

/-- Every rendered date has the shape of four digits, a dash, two digits,
a dash and two digits. -/
theorem isYMD_formatDate (d : Date) : isYMD (formatDate d) = true := by
  unfold isYMD
  rw [formatDate_data]
  simp [digitChar_isDigit]

/-- A concrete date standing for the process-local current time. -/
def d0 : Date := ⟨2024, 1, 2⟩

/-- The empty store. -/
def st0 : Store := { orders := [], nextId := 1 }

/-- The example creation input of the spec: order_number "A1", ten rims,
city "X", an Invoice at unit price 5. -/
def cin0 : CreateInput :=
  { order_number := some "A1", date := none, rim_quantity := some 10,
    city := some "X", document_type := some "Invoice", unit_price := some 5,
    total_price := none, entry_date := none, print_deadline := none,
    cek_date := none, finish_date := none, status := none, notes := none }

/-- The order `cin0` creates in the empty store. -/
def o1 : Order :=
  { id := 1, order_number := "A1", date := d0, rim_quantity := 10,
    city := "X", document_type := "Invoice", unit_price := 5,
    total_price := 50, entry_date := none, print_deadline := none,
    cek_date := none, finish_date := none, status := some "masuk",
    notes := some "" }

/-- The store after creating `o1`. -/
def st1 : Store := { orders := [o1], nextId := 2 }

theorem parseDate_padded : parseDate "2024-03-05" = some ⟨2024, 3, 5⟩ := by decide

theorem parseDate_short : parseDate "2024-3-5" = some ⟨2024, 3, 5⟩ := rfl

theorem parseDate_badDay : parseDate "2024-02-30" = none := by decide

theorem parseDate_malformed : parseDate "x" = none := by decide

theorem formatDate_sample : formatDate ⟨2024, 3, 5⟩ = "2024-03-05" := by decide
theorem addOrder_cin0 : addOrder d0 st0 cin0 = .ok (st1, o1) := by
  norm_num [addOrder, createDate, createOptDate, mkOrder, d0, st0, cin0, o1, st1]

/-- An update input that only changes the rim quantity. -/
def uin0 : UpdateInput :=
  { order_number := none, rim_quantity := some 4, city := none,
    document_type := none, unit_price := none, total_price := none,
    status := none, notes := none, date := none, entry_date := none,
    print_deadline := none, cek_date := none, finish_date := none }

/-- The stored order after updating `o1` with `uin0`: the total price is
recomputed from the new quantity and the stored unit price. -/
def o2u : Order := { o1 with rim_quantity := 4, total_price := 20 }

/-- The store after that update. -/
def st2u : Store := { orders := [o2u], nextId := 2 }

theorem updateOrder_uin0 : updateOrder st1 1 uin0 = .ok (st2u, o2u) := by
  norm_num [updateOrder, updDate, updDateReq, mkUpdated, applyBasic,
    List.find?, st1, st2u, o1, o2u, uin0]

/-- C1: after every successful create and every successful update, the
stored order satisfies total_price = unit_price * rim_quantity, and a
client-supplied total_price value never influences either operation (the
handlers never read that key). -/
theorem create_update_total_price_invariant
    (now : Date) (st stu : Store) (cin : CreateInput) (uin : UpdateInput)
    (oid : Nat) (st₁ st₂ : Store) (o₁ o₂ : Order)
    (hc : addOrder now st cin = .ok (st₁, o₁))
    (hu : updateOrder stu oid uin = .ok (st₂, o₂)) :
    o₁.total_price = o₁.unit_price * (o₁.rim_quantity : Rat) ∧
    o₁ ∈ st₁.orders ∧
    o₂.total_price = o₂.unit_price * (o₂.rim_quantity : Rat) ∧
    o₂ ∈ st₂.orders ∧
    (∀ tp, addOrder now st { cin with total_price := tp } = .ok (st₁, o₁)) ∧
    (∀ tp, updateOrder stu oid { uin with total_price := tp } = .ok (st₂, o₂)) := by
  obtain ⟨date, entry, pdl, n, q, c, t, p, _, _, _, _, _, _, _, _, _, ho, hst⟩ :=
    addOrder_ok_inv now st cin st₁ o₁ hc
  obtain ⟨prev, dateu, entryu, pdlu, ceku, finu, hfind, _, _, _, _, _, _, hou, hstu⟩ :=
    updateOrder_ok_inv stu oid uin st₂ o₂ hu
  refine ⟨?_, ?_, ?_, ?_, ?_, ?_⟩
  · rw [ho]; simp [mkOrder]
  · rw [hst]; simp
  · rw [hou]; simp [mkUpdated, applyBasic, mul_comm]
  · rw [hstu]
    have hmem := List.mem_of_find?_eq_some hfind
    have hpred : (prev.id == oid) = true := by
      have h := List.find?_some hfind
      simpa using h
    exact List.mem_map.mpr ⟨prev, hmem, by simp [hpred]⟩
  · intro tp; exact hc
  · intro tp; exact hu

/-- C1 witness: the invariant at the concrete example create and update. -/
theorem create_update_total_price_invariant_witness :
    o1.total_price = o1.unit_price * (o1.rim_quantity : Rat) ∧
    o1 ∈ st1.orders ∧
    o2u.total_price = o2u.unit_price * (o2u.rim_quantity : Rat) ∧
    o2u ∈ st2u.orders :=
  have h := create_update_total_price_invariant d0 st0 st1 cin0 uin0 1 st1
    st2u o1 o2u addOrder_cin0 updateOrder_uin0
  ⟨h.1, h.2.1, h.2.2.1, h.2.2.2.1⟩

/-- C2: creating an order whose order_number equals that of a stored order
fails with the IntegrityError of the unique constraint, an error distinct
from every other failure of the handler, and the rolled-back store still
holds the first order unchanged. -/
theorem duplicate_order_number_distinct_error
    (now : Date) (st : Store) (cin : CreateInput) (x : Order) (n : String)
    (hx : x ∈ st.orders) (hn : cin.order_number = some n)
    (hxn : x.order_number = n) (dd : Date) (ee pp : Option Date)
    (hd : createDate now cin.date = .ok dd)
    (he : createOptDate cin.entry_date = .ok ee)
    (hp : createOptDate cin.print_deadline = .ok pp)
    (hq : cin.rim_quantity.isSome = true) (hc : cin.city.isSome = true)
    (ht : cin.document_type.isSome = true)
    (hu : cin.unit_price.isSome = true) :
    runCreate now st cin = (st, .error .integrityError) ∧
    x ∈ (runCreate now st cin).1.orders := by
  obtain ⟨q, hq'⟩ := Option.isSome_iff_exists.mp hq
  obtain ⟨c, hc'⟩ := Option.isSome_iff_exists.mp hc
  obtain ⟨t, ht'⟩ := Option.isSome_iff_exists.mp ht
  obtain ⟨p, hu'⟩ := Option.isSome_iff_exists.mp hu
  have hany : st.orders.any (fun y => y.order_number == n) = true :=
    List.any_eq_true.mpr ⟨x, hx, by simp [hxn]⟩
  have haddo : addOrder now st cin = .error .integrityError := by
    simp [addOrder, hd, he, hp, hn, hq', hc', ht', hu', hany]
  have hrun : runCreate now st cin = (st, .error .integrityError) := by
    simp [runCreate, haddo]
  exact ⟨hrun, by rw [hrun]; exact hx⟩

/-- C2 witness: re-creating order_number "A1" against the store that
already holds `o1` fails with the integrity error and keeps `o1`. -/
theorem duplicate_order_number_distinct_error_witness :
    runCreate d0 st1 cin0 = (st1, .error .integrityError) ∧
    o1 ∈ (runCreate d0 st1 cin0).1.orders :=
  duplicate_order_number_distinct_error d0 st1 cin0 o1 "A1"
    (by simp [st1]) rfl rfl d0 none none rfl rfl rfl rfl rfl rfl rfl

/-- C3: a create input missing any of the five required fields
order_number, rim_quantity, city, document_type, unit_price fails with the
KeyError naming the first missing one of them (the ValidationError of the
spec, identifying the offending field), and the store is unchanged. -/
theorem missing_required_field_validation
    (now : Date) (st : Store) (cin : CreateInput)
    (dd : Date) (ee pp : Option Date)
    (hd : createDate now cin.date = .ok dd)
    (he : createOptDate cin.entry_date = .ok ee)
    (hp : createOptDate cin.print_deadline = .ok pp) :
    (cin.order_number = none →
      runCreate now st cin = (st, .error (.keyError "order_number"))) ∧
    (cin.order_number.isSome = true → cin.rim_quantity = none →
      runCreate now st cin = (st, .error (.keyError "rim_quantity"))) ∧
    (cin.order_number.isSome = true → cin.rim_quantity.isSome = true →
      cin.city = none →
      runCreate now st cin = (st, .error (.keyError "city"))) ∧
    (cin.order_number.isSome = true → cin.rim_quantity.isSome = true →
      cin.city.isSome = true → cin.document_type = none →
      runCreate now st cin = (st, .error (.keyError "document_type"))) ∧
    (cin.order_number.isSome = true → cin.rim_quantity.isSome = true →
      cin.city.isSome = true → cin.document_type.isSome = true →
      cin.unit_price = none →
      runCreate now st cin = (st, .error (.keyError "unit_price"))) := by
  refine ⟨?_, ?_, ?_, ?_, ?_⟩
  · intro h1
    simp [runCreate, addOrder, hd, he, hp, h1]
  · intro h1 h2
    obtain ⟨n, h1'⟩ := Option.isSome_iff_exists.mp h1
    simp [runCreate, addOrder, hd, he, hp, h1', h2]
  · intro h1 h2 h3
    obtain ⟨n, h1'⟩ := Option.isSome_iff_exists.mp h1
    obtain ⟨q, h2'⟩ := Option.isSome_iff_exists.mp h2
    simp [runCreate, addOrder, hd, he, hp, h1', h2', h3]
  · intro h1 h2 h3 h4
    obtain ⟨n, h1'⟩ := Option.isSome_iff_exists.mp h1
    obtain ⟨q, h2'⟩ := Option.isSome_iff_exists.mp h2
    obtain ⟨c, h3'⟩ := Option.isSome_iff_exists.mp h3
    simp [runCreate, addOrder, hd, he, hp, h1', h2', h3', h4]
  · intro h1 h2 h3 h4 h5
    obtain ⟨n, h1'⟩ := Option.isSome_iff_exists.mp h1
    obtain ⟨q, h2'⟩ := Option.isSome_iff_exists.mp h2
    obtain ⟨c, h3'⟩ := Option.isSome_iff_exists.mp h3
    obtain ⟨t, h4'⟩ := Option.isSome_iff_exists.mp h4
    simp [runCreate, addOrder, hd, he, hp, h1', h2', h3', h4', h5]

/-- A create input missing the required city field. -/
def cinNoCity : CreateInput := { cin0 with city := none }

/-- C3 witness: creating without a city fails with the KeyError naming
city and leaves the store empty. -/
theorem missing_required_field_validation_witness :
    runCreate d0 st0 cinNoCity = (st0, .error (.keyError "city")) :=
  (missing_required_field_validation d0 st0 cinNoCity d0 none none
    rfl rfl rfl).2.2.1 rfl rfl rfl

/-- C6: updating or deleting an id that no stored order has fails with the
404 NotFoundError, and the failed delete leaves the store with the same
order count and every stored order still present. -/
theorem update_delete_not_found
    (st : Store) (oid : Nat) (uin : UpdateInput)
    (h : ∀ x ∈ st.orders, x.id ≠ oid) :
    runUpdate st oid uin = (st, .error .notFound) ∧
    runDelete st oid = (st, .error .notFound) ∧
    (runDelete st oid).1.orders.length = st.orders.length ∧
    ∀ x ∈ st.orders, x ∈ (runDelete st oid).1.orders := by
  have hfind : st.orders.find? (fun x => x.id == oid) = none := by
    rw [List.find?_eq_none]
    intro x hx
    simp [h x hx]
  have h2 : runDelete st oid = (st, .error .notFound) := by
    simp [runDelete, deleteOrder, hfind]
  refine ⟨by simp [runUpdate, updateOrder, hfind], h2, by rw [h2],
    fun x hx => by rw [h2]; exact hx⟩

/-- C6 witness: id 5 is not stored in `st1`. -/
theorem update_delete_not_found_witness :
    runUpdate st1 5 uin0 = (st1, .error .notFound) ∧
    runDelete st1 5 = (st1, .error .notFound) ∧
    (runDelete st1 5).1.orders.length = st1.orders.length :=
  have h := update_delete_not_found st1 5 uin0 (by decide)
  ⟨h.1, h.2.1, h.2.2.1⟩

/-- C7: create defaults: an absent date key gives the current local date,
an absent status key gives "masuk", an absent notes key gives the empty
string, and any supplied status string is stored exactly as given: no
validation against the four workflow values happens. -/
theorem create_defaults_and_status_freedom
    (now : Date) (st : Store) (cin : CreateInput) (st' : Store) (o : Order)
    (h : addOrder now st cin = .ok (st', o)) :
    (cin.date = none → o.date = now) ∧
    (cin.status = none → o.status = some "masuk") ∧
    (cin.notes = none → o.notes = some "") ∧
    (∀ s, cin.status = some (some s) → o.status = some s) := by
  obtain ⟨date, entry, pdl, n, q, c, t, p, hdate, _, _, _, _, _, _, _, _, ho, _⟩ :=
    addOrder_ok_inv now st cin st' o h
  refine ⟨?_, ?_, ?_, ?_⟩
  · intro hv
    rw [hv] at hdate
    simp only [createDate, Except.ok.injEq] at hdate
    subst hdate
    rw [ho]
    rfl
  · intro hv
    rw [ho]
    simp [mkOrder, hv]
  · intro hv
    rw [ho]
    simp [mkOrder, hv]
  · intro s hv
    rw [ho]
    simp [mkOrder, hv]

/-- A create input carrying an out-of-set status value. -/
def cinStat : CreateInput := { cin0 with status := some (some "weird") }

/-- The order `cinStat` creates in the empty store. -/
def oStat : Order := { o1 with status := some "weird" }

theorem addOrder_cinStat :
    addOrder d0 st0 cinStat = .ok ({ orders := [oStat], nextId := 2 }, oStat) := by
  norm_num [addOrder, createDate, createOptDate, mkOrder, d0, st0, cin0,
    cinStat, o1, oStat]

/-- C7 witness: the concrete example create takes all three defaults, and
the out-of-set status value "weird" is stored as given. -/
theorem create_defaults_and_status_freedom_witness :
    o1.date = d0 ∧ o1.status = some "masuk" ∧ o1.notes = some "" ∧
    oStat.status = some "weird" :=
  have h1 := create_defaults_and_status_freedom d0 st0 cin0 st1 o1 addOrder_cin0
  have h2 := create_defaults_and_status_freedom d0 st0 cinStat
    { orders := [oStat], nextId := 2 } oStat addOrder_cinStat
  ⟨h1.1 rfl, h1.2.1 rfl, h1.2.2.1 rfl, h2.2.2.2 "weird" rfl⟩

/-- C9: create never reads cek_date or finish_date from its input: the
outcome is unchanged under any supplied values for the two keys and the
created order has both columns unset, so only a later update can set
them. -/
theorem create_ignores_cek_finish
    (now : Date) (st : Store) (cin : CreateInput) (st' : Store) (o : Order)
    (h : addOrder now st cin = .ok (st', o)) :
    o.cek_date = none ∧ o.finish_date = none ∧
    (∀ v w, addOrder now st { cin with cek_date := v, finish_date := w } =
      .ok (st', o)) := by
  obtain ⟨date, entry, pdl, n, q, c, t, p, _, _, _, _, _, _, _, _, _, ho, _⟩ :=
    addOrder_ok_inv now st cin st' o h
  exact ⟨by rw [ho]; rfl, by rw [ho]; rfl, fun v w => h⟩

/-- A create input that tries to supply the two ignored date keys. -/
def cinCekFin : CreateInput :=
  { cin0 with cek_date := some (some "2024-05-06"), finish_date := some none }

/-- C9 witness: supplying cek_date and finish_date on the example create
changes nothing and the created order has both unset. -/
theorem create_ignores_cek_finish_witness :
    o1.cek_date = none ∧ o1.finish_date = none ∧
    addOrder d0 st0 cinCekFin = .ok (st1, o1) :=
  have h := create_ignores_cek_finish d0 st0 cin0 st1 o1 addOrder_cin0
  ⟨h.1, h.2.1, h.2.2 (some (some "2024-05-06")) (some none)⟩

/-- C10: on create the "masuk" default fires only on key absence: status
present as the empty string is stored as the empty string, status present
as null is stored as null; the date default instead fires on falsiness, so
a date present as the empty string still becomes the current date. -/
theorem status_default_absence_vs_date_falsiness
    (now : Date) (st : Store) (cin : CreateInput) (st' : Store) (o : Order)
    (h : addOrder now st cin = .ok (st', o)) :
    (cin.status = some (some "") → o.status = some "") ∧
    (cin.status = some none → o.status = none) ∧
    (cin.status = none → o.status = some "masuk") ∧
    (cin.date = some (some "") → o.date = now) := by
  obtain ⟨date, entry, pdl, n, q, c, t, p, hdate, _, _, _, _, _, _, _, _, ho, _⟩ :=
    addOrder_ok_inv now st cin st' o h
  refine ⟨?_, ?_, ?_, ?_⟩
  · intro hv
    rw [ho]
    simp [mkOrder, hv]
  · intro hv
    rw [ho]
    simp [mkOrder, hv]
  · intro hv
    rw [ho]
    simp [mkOrder, hv]
  · intro hv
    rw [hv] at hdate
    simp only [createDate, beq_self_eq_true, if_true, Except.ok.injEq] at hdate
    subst hdate
    rw [ho]
    rfl

/-- A create input with the status key present but empty and the date key
present but empty. -/
def cinEmpty : CreateInput :=
  { cin0 with status := some (some ""), date := some (some "") }

/-- The order `cinEmpty` creates: empty status, defaulted date. -/
def oEmpty : Order := { o1 with status := some "" }

theorem addOrder_cinEmpty :
    addOrder d0 st0 cinEmpty = .ok ({ orders := [oEmpty], nextId := 2 }, oEmpty) := by
  norm_num [addOrder, createDate, createOptDate, mkOrder, d0, st0, cin0,
    cinEmpty, o1, oEmpty]

/-- A create input with the status key present and null. -/
def cinNullStatus : CreateInput := { cin0 with status := some none }

/-- The order `cinNullStatus` creates: null status. -/
def oNullStatus : Order := { o1 with status := none }

theorem addOrder_cinNullStatus :
    addOrder d0 st0 cinNullStatus =
      .ok ({ orders := [oNullStatus], nextId := 2 }, oNullStatus) := by
  norm_num [addOrder, createDate, createOptDate, mkOrder, d0, st0, cin0,
    cinNullStatus, o1, oNullStatus]

/-- C10 witness: empty status stays empty while the empty date becomes the
current date on one create, null status stays null on a second, and the
absent status of the example create became "masuk". -/
theorem status_default_absence_vs_date_falsiness_witness :
    oEmpty.status = some "" ∧ oEmpty.date = d0 ∧
    oNullStatus.status = none ∧ o1.status = some "masuk" :=
  have h1 := status_default_absence_vs_date_falsiness d0 st0 cinEmpty
    { orders := [oEmpty], nextId := 2 } oEmpty addOrder_cinEmpty
  have h2 := status_default_absence_vs_date_falsiness d0 st0 cinNullStatus
    { orders := [oNullStatus], nextId := 2 } oNullStatus addOrder_cinNullStatus
  have h3 := status_default_absence_vs_date_falsiness d0 st0 cin0 st1 o1
    addOrder_cin0
  ⟨h1.1 rfl, h1.2.2.2 rfl, h2.2.1 rfl, h3.2.2.1 rfl⟩

theorem updDate_ok_falsy_eq (cur r : Option Date) (v : Option (Option String))
    (hv : truthy v = false) (h : updDate cur v = .ok r) : r = cur := by
  rw [updDate_falsy cur v hv] at h
  exact (Except.ok.inj h).symm

theorem updDate_ok_parse_eq (cur r : Option Date) (s : String) (dd : Date)
    (hp : parseDate s = some dd) (h : updDate cur (some (some s)) = .ok r) :
    r = some dd := by
  rw [updDate_of_parse cur s dd hp] at h
  exact (Except.ok.inj h).symm

theorem updDateReq_ok_falsy_eq (cur r : Date) (v : Option (Option String))
    (hv : truthy v = false) (h : updDateReq cur v = .ok r) : r = cur := by
  rw [updDateReq_falsy cur v hv] at h
  exact (Except.ok.inj h).symm

theorem updDateReq_ok_parse_eq (cur r : Date) (s : String) (dd : Date)
    (hp : parseDate s = some dd) (h : updDateReq cur (some (some s)) = .ok r) :
    r = dd := by
  rw [updDateReq_of_parse cur s dd hp] at h
  exact (Except.ok.inj h).symm

/-- C4: partial-update semantics against the stored order: every non-date
field present in the input overwrites the stored one and every absent one
persists; the total price is always recomputed from the possibly
just-updated quantity and unit price, whether or not either key was
supplied; and each date field changes only when its key is present with a
nonempty parseable value, an absent, null or empty value leaving the
stored value untouched. -/
theorem update_partial_semantics
    (st : Store) (oid : Nat) (uin : UpdateInput) (prev : Order)
    (st' : Store) (o : Order)
    (hfind : st.orders.find? (fun x => x.id == oid) = some prev)
    (h : updateOrder st oid uin = .ok (st', o)) :
    o.order_number = uin.order_number.getD prev.order_number ∧
    o.rim_quantity = uin.rim_quantity.getD prev.rim_quantity ∧
    o.city = uin.city.getD prev.city ∧
    o.document_type = uin.document_type.getD prev.document_type ∧
    o.unit_price = uin.unit_price.getD prev.unit_price ∧
    o.status = uin.status.getD prev.status ∧
    o.notes = uin.notes.getD prev.notes ∧
    o.total_price = ((uin.rim_quantity.getD prev.rim_quantity : Int) : Rat) *
      (uin.unit_price.getD prev.unit_price) ∧
    (truthy uin.date = false → o.date = prev.date) ∧
    (∀ s dd, uin.date = some (some s) → parseDate s = some dd → o.date = dd) ∧
    (truthy uin.entry_date = false → o.entry_date = prev.entry_date) ∧
    (∀ s dd, uin.entry_date = some (some s) → parseDate s = some dd →
      o.entry_date = some dd) ∧
    (truthy uin.print_deadline = false →
      o.print_deadline = prev.print_deadline) ∧
    (∀ s dd, uin.print_deadline = some (some s) → parseDate s = some dd →
      o.print_deadline = some dd) ∧
    (truthy uin.cek_date = false → o.cek_date = prev.cek_date) ∧
    (∀ s dd, uin.cek_date = some (some s) → parseDate s = some dd →
      o.cek_date = some dd) ∧
    (truthy uin.finish_date = false → o.finish_date = prev.finish_date) ∧
    (∀ s dd, uin.finish_date = some (some s) → parseDate s = some dd →
      o.finish_date = some dd) := by
  obtain ⟨prev2, date, entry, pdl, cek, fin, hfind2, hdate, hentry, hpdl,
    hcek, hfin, _, ho, _⟩ := updateOrder_ok_inv st oid uin st' o h
  rw [hfind] at hfind2
  injection hfind2 with hprev
  subst hprev
  refine ⟨by rw [ho]; rfl, by rw [ho]; rfl, by rw [ho]; rfl, by rw [ho]; rfl,
    by rw [ho]; rfl, by rw [ho]; rfl, by rw [ho]; rfl, by rw [ho]; rfl,
    ?_, ?_, ?_, ?_, ?_, ?_, ?_, ?_, ?_, ?_⟩
  · intro hv
    rw [updDateReq_ok_falsy_eq prev.date date uin.date hv hdate] at ho
    rw [ho]
    rfl
  · intro s dd hv hp
    rw [hv] at hdate
    rw [updDateReq_ok_parse_eq prev.date date s dd hp hdate] at ho
    rw [ho]
    rfl
  · intro hv
    rw [updDate_ok_falsy_eq prev.entry_date entry uin.entry_date hv hentry] at ho
    rw [ho]
    rfl
  · intro s dd hv hp
    rw [hv] at hentry
    rw [updDate_ok_parse_eq prev.entry_date entry s dd hp hentry] at ho
    rw [ho]
    rfl
  · intro hv
    rw [updDate_ok_falsy_eq prev.print_deadline pdl uin.print_deadline hv hpdl] at ho
    rw [ho]
    rfl
  · intro s dd hv hp
    rw [hv] at hpdl
    rw [updDate_ok_parse_eq prev.print_deadline pdl s dd hp hpdl] at ho
    rw [ho]
    rfl
  · intro hv
    rw [updDate_ok_falsy_eq prev.cek_date cek uin.cek_date hv hcek] at ho
    rw [ho]
    rfl
  · intro s dd hv hp
    rw [hv] at hcek
    rw [updDate_ok_parse_eq prev.cek_date cek s dd hp hcek] at ho
    rw [ho]
    rfl
  · intro hv
    rw [updDate_ok_falsy_eq prev.finish_date fin uin.finish_date hv hfin] at ho
    rw [ho]
    rfl
  · intro s dd hv hp
    rw [hv] at hfin
    rw [updDate_ok_parse_eq prev.finish_date fin s dd hp hfin] at ho
    rw [ho]
    rfl

/-- An update input mixing present, absent, empty and null fields: new
quantity and city, new status, a parseable entry_date, an empty
print_deadline and a null cek_date. -/
def uin1 : UpdateInput :=
  { order_number := none, rim_quantity := some 4, city := some "Y",
    document_type := none, unit_price := none, total_price := none,
    status := some (some "proses"), notes := none, date := none,
    entry_date := some (some "2024-03-05"), print_deadline := some (some ""),
    cek_date := some none, finish_date := none }

/-- The stored order after updating `o1` with `uin1`. -/
def o1u : Order :=
  { o1 with
    rim_quantity := 4
    city := "Y"
    total_price := 20
    status := some "proses"
    entry_date := some ⟨2024, 3, 5⟩ }

/-- The store after that update. -/
def st1u : Store := { orders := [o1u], nextId := 2 }

theorem updateOrder_uin1 : updateOrder st1 1 uin1 = .ok (st1u, o1u) := by
  have hp : parseDate "2024-03-05" = some ⟨2024, 3, 5⟩ := by decide
  have hne : ¬ ("2024-03-05" = "") := by decide
  norm_num [updateOrder, updDate, updDateReq, mkUpdated, applyBasic,
    List.find?, st1, o1, uin1, st1u, o1u, hp, hne]

/-- C4 witness: the mixed update `uin1` of `o1` overwrites the supplied
fields, keeps the absent ones, recomputes the total from the new quantity
and the stored price, sets the parseable entry_date and ignores the empty
print_deadline and null cek_date. -/
theorem update_partial_semantics_witness :
    o1u.city = "Y" ∧ o1u.rim_quantity = 4 ∧
    o1u.document_type = o1.document_type ∧
    o1u.total_price = ((4 : Int) : Rat) * o1.unit_price ∧
    o1u.entry_date = some ⟨2024, 3, 5⟩ ∧
    o1u.print_deadline = o1.print_deadline ∧
    o1u.cek_date = o1.cek_date ∧ o1u.date = o1.date :=
  have h := update_partial_semantics st1 1 uin1 o1 st1u o1u rfl updateOrder_uin1
  ⟨h.2.2.1, h.2.1, h.2.2.2.1, h.2.2.2.2.2.2.2.1,
    h.2.2.2.2.2.2.2.2.2.2.2.1 "2024-03-05" ⟨2024, 3, 5⟩ rfl (by decide),
    h.2.2.2.2.2.2.2.2.2.2.2.2.1 rfl, h.2.2.2.2.2.2.2.2.2.2.2.2.2.2.1 rfl,
    h.2.2.2.2.2.2.2.2.1 rfl⟩

/-- Serialization renders each date column as a formatted date or null. -/
theorem toDict_dates_shape (o : Order) :
    o.toDict.date.all isYMD = true ∧
    o.toDict.entry_date.all isYMD = true ∧
    o.toDict.print_deadline.all isYMD = true ∧
    o.toDict.cek_date.all isYMD = true ∧
    o.toDict.finish_date.all isYMD = true := by
  unfold Order.toDict
  refine ⟨by simp [isYMD_formatDate], ?_, ?_, ?_, ?_⟩
  · cases o.entry_date <;> simp [isYMD_formatDate]
  · cases o.print_deadline <;> simp [isYMD_formatDate]
  · cases o.cek_date <;> simp [isYMD_formatDate]
  · cases o.finish_date <;> simp [isYMD_formatDate]

/-- C8: round trip: after a successful create, reading the store back
yields exactly one record equal to the serialization of the creation
result, and every date field of that record is null when unset and a
YYYY-MM-DD rendering otherwise. -/
theorem create_read_roundtrip
    (now : Date) (st : Store) (cin : CreateInput) (st' : Store) (o : Order)
    (h : addOrder now st cin = .ok (st', o)) :
    (getOrders st').count o.toDict = 1 ∧
    o.toDict.date.all isYMD = true ∧
    o.toDict.entry_date.all isYMD = true ∧
    o.toDict.print_deadline.all isYMD = true ∧
    o.toDict.cek_date.all isYMD = true ∧
    o.toDict.finish_date.all isYMD = true := by
  obtain ⟨date, entry, pdl, n, q, c, t, p, _, _, _, _, _, _, _, _, hany, ho, hst⟩ :=
    addOrder_ok_inv now st cin st' o h
  have hshape := toDict_dates_shape o
  have hon : o.order_number = n := by rw [ho]; rfl
  have hall : ∀ x ∈ st.orders, ¬ ((fun y => y.order_number == n) x = true) :=
    List.any_eq_false.mp hany
  have hnotmem : o.toDict ∉ st.orders.map Order.toDict := by
    intro hmem
    obtain ⟨x, hx, hxd⟩ := List.mem_map.mp hmem
    have hxo : x.order_number = o.order_number :=
      congrArg OrderRecord.order_number hxd
    exact hall x hx (by simp [hxo, hon])
  refine ⟨?_, hshape.1, hshape.2.1, hshape.2.2.1, hshape.2.2.2.1, hshape.2.2.2.2⟩
  rw [hst]
  simp only [getOrders, List.map_append, List.count_append, List.map_cons,
    List.map_nil]
  rw [List.count_eq_zero.mpr hnotmem]
  simp

/-- C8 witness: reading back after the example create yields exactly one
copy of its serialized record, whose set date renders as YYYY-MM-DD. -/
theorem create_read_roundtrip_witness :
    (getOrders st1).count o1.toDict = 1 ∧ o1.toDict.date.all isYMD = true ∧
    o1.toDict.cek_date.all isYMD = true :=
  have h := create_read_roundtrip d0 st0 cin0 st1 o1 addOrder_cin0
  ⟨h.1, h.2.1, h.2.2.2.2.1⟩

theorem getD_map_of_lt {α β : Type} (f : α → β) (l : List α) (i : Nat)
    (d : β) (hi : i < l.length) : (l.map f).getD i d = f (l.get ⟨i, hi⟩) := by
  rw [List.getD_eq_getElem?_getD, List.getElem?_map, List.getElem?_eq_getElem hi]
  rfl

theorem getD_of_lt {α : Type} (l : List α) (i : Nat) (d : α)
    (hi : i < l.length) : l.getD i d = l.get ⟨i, hi⟩ := by
  rw [List.getD_eq_getElem?_getD, List.getElem?_eq_getElem hi]
  rfl

/-- C5 counterexample: exporting an empty store produces a sheet with zero
rows and no columns at all: the DataFrame built from the empty record list
has no columns, so not even a header row is written, against the claimed
N + 1 = 1 rows with columns matching the serialized field set. -/
theorem export_empty_store_no_header :
    (exportToExcel []).numRows = 0 ∧ (exportToExcel []).header = [] ∧
    dictKeys ≠ [] :=
  ⟨rfl, rfl, by decide⟩

/-- C5 amended: for every nonempty order list the export has exactly N + 1
rows: a bold, shaded header row carrying the serialized field names, then
one row per order in read order; each column is as wide as its longest
rendered cell or its header, whichever is larger, plus 2.  For the empty
order list the sheet instead has zero rows and no columns, because pandas
derives the columns from the record list. -/
theorem export_nonempty_shape (orders : List Order) (h : orders ≠ []) :
    (exportToExcel orders).numRows = orders.length + 1 ∧
    (exportToExcel orders).header = dictKeys ∧
    (exportToExcel orders).headerBold = true ∧
    (exportToExcel orders).headerShaded = true ∧
    (exportToExcel orders).dataRows =
      orders.map (fun o => dictKeys.map (fun c => recordCell o.toDict c)) ∧
    (∀ i, (hi : i < dictKeys.length) →
      (exportToExcel orders).colWidths.getD i 0 =
        max ((((exportToExcel orders).dataRows).map
            (fun row => (row.getD i "").length)).foldl max 0)
          (dictKeys.getD i "").length + 2) := by
  have hne : (orders.map Order.toDict).isEmpty = false := by
    cases orders with
    | nil => exact absurd rfl h
    | cons a l => rfl
  have hcols : (exportToExcel orders).header = dictKeys := by
    simp [exportToExcel, hne]
  have hrows : (exportToExcel orders).dataRows =
      orders.map (fun o => dictKeys.map (fun c => recordCell o.toDict c)) := by
    simp [exportToExcel, hne, List.map_map, Function.comp]
  have hwidths : (exportToExcel orders).colWidths =
      dictKeys.map (fun c =>
        max ((orders.map (fun o => (recordCell o.toDict c).length)).foldl max 0)
          c.length + 2) := by
    simp only [exportToExcel, hne, Bool.false_eq_true, if_false, List.map_map]
    rfl
  refine ⟨?_, hcols, rfl, rfl, hrows, ?_⟩
  · unfold ExportedSheet.numRows
    rw [hcols, hrows]
    simp [dictKeys, Nat.add_comm]
  · intro i hi
    rw [hwidths, hrows, getD_map_of_lt _ _ _ _ hi, getD_of_lt dictKeys i "" hi,
      List.map_map]
    have hmaps : List.map ((fun row => (List.getD row i "").length) ∘ fun o =>
        List.map (fun c => recordCell o.toDict c) dictKeys) orders =
        List.map (fun o =>
          (recordCell o.toDict (dictKeys.get ⟨i, hi⟩)).length) orders := by
      apply List.map_congr_left
      intro o _
      simp only [Function.comp_apply]
      rw [getD_map_of_lt _ _ _ _ hi]
    rw [hmaps]

/-- C5 witness for the amended statement: exporting the singleton store
gives two rows, the field-set header and a bold shaded header row. -/
theorem export_nonempty_shape_witness :
    (exportToExcel [o1]).numRows = 2 ∧
    (exportToExcel [o1]).header = dictKeys ∧
    (exportToExcel [o1]).headerBold = true ∧
    (exportToExcel [o1]).headerShaded = true :=
  have h := export_nonempty_shape [o1] (by decide)
  ⟨h.1, h.2.1, h.2.2.1, h.2.2.2.1⟩

end FormOrder
